import Mathlib

/-!
Shallow embedding of the PocketBudget tablet-loan ledger
(`server/storage.ts`, `shared/schema.ts`, migration
`001_add_accessories_to_tablet_history.sql`).

The relational store is modelled as lists of rows plus serial-id
counters; `db.transaction` becomes all-or-nothing state passing
(`Except` on operations that can throw: an error result leaves the
state untouched, matching transaction rollback).  SQL `UPDATE ... WHERE`
is a `List.map` guarded by the `WHERE` predicate, `SELECT ... LIMIT`
via destructuring `const [x] = ...` is `List.find?`, `INSERT` is list
append with the serial counter as the new id.

Bookkeeping columns `createdAt` / `updatedAt` (always set to the wall
clock) are omitted; timestamps that the logic reads (`dateBorrowed`,
`returnDate`, `dateReported`, history `date`) are modelled as `Nat`.
Columns of `students` and `tablets` that the ledger logic never reads
(contact fields, imei, color, accessory flags, ...) are omitted.
The `accessories` json blob is the three-boolean object built by the
borrowing form (`\x7bcharger, cable, box\x7d`); the string-normalisation
branch of `createBorrowRecord` (JSON.parse when the payload arrives as
a string) is absorbed by taking the payload already in structured form,
which is what the route hands over after validation.
-/

inductive TabletStatus
  | Serviceable
  | Unserviceable
  | Lost
deriving DecidableEq, Repr

inductive TabletCondition
  | NewExcellent
  | Good
  | Fair
  | Poor
  | Defective
deriving DecidableEq, Repr

/-- Rendering of `tablet_status` enum values as stored in Postgres and
interpolated into error messages. -/
def statusText : TabletStatus → String
  | .Serviceable => "Serviceable"
  | .Unserviceable => "Unserviceable"
  | .Lost => "Lost"

/-- Rendering of `tablet_condition` enum values. -/
def conditionText : TabletCondition → String
  | .NewExcellent => "New / Excellent"
  | .Good => "Good"
  | .Fair => "Fair"
  | .Poor => "Poor"
  | .Defective => "Defective"

/-- The accessories json object produced by the borrowing form:
`\x7b charger, cable, box \x7d`, each a boolean. -/
structure Accessories where
  charger : Bool
  cable : Bool
  box : Bool
deriving DecidableEq, Repr

def boolText : Bool → String
  | true => "true"
  | false => "false"

/-- JSON.stringify of the accessories object. -/
def accessoriesJson (a : Accessories) : String :=
  "\x7b\"charger\":" ++ boolText a.charger ++ ",\"cable\":" ++ boolText a.cable
    ++ ",\"box\":" ++ boolText a.box ++ "\x7d"

/-- A row of the `students` table (fields the ledger reads). -/
structure Student where
  id : Nat
  studentId : String
  lastName : String
  firstName : String
  fullName : String
deriving DecidableEq, Repr

/-- `student.fullName || student.firstName + " " + student.lastName`:
JavaScript `||` falls through on the empty string. -/
def displayName (st : Student) : String :=
  if st.fullName = "" then st.firstName ++ " " ++ st.lastName else st.fullName

/-- A row of the `tablets` table (fields the ledger reads). -/
structure Tablet where
  id : Nat
  brand : String
  model : String
  serialNumber : String
  status : TabletStatus
  condition : TabletCondition
deriving DecidableEq, Repr

/-- A row of the `borrow_records` table. -/
structure BorrowRecord where
  id : Nat
  tabletId : Nat
  studentId : Nat
  dateBorrowed : Nat
  expectedReturnDate : Option Nat
  accessories : Accessories
  condition : TabletCondition
  notes : Option String
  isReturned : Bool
  returnDate : Option Nat
  returnCondition : Option TabletCondition
  returnNotes : Option String
deriving DecidableEq, Repr

/-- A row of the `lost_reports` table. -/
structure LostReport where
  id : Nat
  tabletId : Nat
  borrowRecordId : Option Nat
  studentId : Nat
  dateReported : Nat
  details : Option String
  documentPath : Option String
deriving DecidableEq, Repr

/-- A row of the `tablet_history` table (with the `accessories` column
added by migration 001). -/
structure HistoryEvent where
  id : Nat
  tabletId : Nat
  studentId : Option Nat
  borrowRecordId : Option Nat
  eventType : String
  date : Nat
  condition : Option TabletCondition
  accessories : Option Accessories
  notes : Option String
deriving DecidableEq, Repr

/-- The database state: one list of rows per table, plus the serial-id
counters Postgres keeps for the `serial("id")` primary keys. -/
structure DB where
  students : List Student
  tablets : List Tablet
  borrowRecords : List BorrowRecord
  lostReports : List LostReport
  tabletHistory : List HistoryEvent
  nextTabletId : Nat
  nextBorrowId : Nat
  nextLostId : Nat
  nextHistoryId : Nat
deriving DecidableEq, Repr

/-- `SELECT * FROM students WHERE id = ...` (first row). -/
def findStudent (s : DB) (id : Nat) : Option Student :=
  s.students.find? (fun st => decide (st.id = id))

/-- `SELECT * FROM tablets WHERE id = ...` (first row). -/
def findTablet (s : DB) (id : Nat) : Option Tablet :=
  s.tablets.find? (fun t => decide (t.id = id))

/-- `SELECT * FROM borrow_records WHERE id = ...` (first row). -/
def findBorrowRecord (s : DB) (id : Nat) : Option BorrowRecord :=
  s.borrowRecords.find? (fun r => decide (r.id = id))

/-- `SELECT * FROM borrow_records WHERE tablet_id = ... AND is_returned = false`
(first row): the availability check inside `createBorrowRecord`. -/
def openRecordFor (s : DB) (tabletId : Nat) : Option BorrowRecord :=
  s.borrowRecords.find? (fun r => decide (r.tabletId = tabletId ∧ r.isReturned = false))

/-- `UPDATE tablets SET ... WHERE id = ...` as a guarded map. -/
def updateTabletRows (l : List Tablet) (id : Nat) (f : Tablet → Tablet) : List Tablet :=
  l.map (fun t => if t.id = id then f t else t)

/-- `UPDATE borrow_records SET ... WHERE id = ...` as a guarded map. -/
def updateBorrowRows (l : List BorrowRecord) (id : Nat) (f : BorrowRecord → BorrowRecord) :
    List BorrowRecord :=
  l.map (fun r => if r.id = id then f r else r)

/-- Payload of `insertTabletSchema`: `status` and `condition` arrive
optionally and fall back to the column defaults. -/
structure InsertTablet where
  brand : String
  model : String
  serialNumber : String
  status : Option TabletStatus
  condition : Option TabletCondition
deriving DecidableEq, Repr

/-- Payload of `insertBorrowRecordSchema` (closure fields are omitted by
the schema, so the inserted row always starts open). -/
structure InsertBorrowRecord where
  tabletId : Nat
  studentId : Nat
  dateBorrowed : Nat
  expectedReturnDate : Option Nat
  accessories : Accessories
  condition : TabletCondition
  notes : Option String
deriving DecidableEq, Repr

/-- Payload of `updateBorrowRecordForReturnSchema`: note that
`isReturned` is a caller-supplied boolean, not forced to `true`. -/
structure UpdateBorrowRecordForReturn where
  isReturned : Bool
  returnDate : Nat
  returnCondition : TabletCondition
  returnNotes : Option String
deriving DecidableEq, Repr

/-- Payload of `insertLostReportSchema`. -/
structure InsertLostReport where
  tabletId : Nat
  borrowRecordId : Option Nat
  studentId : Nat
  dateReported : Nat
  details : Option String
  documentPath : Option String
deriving DecidableEq, Repr

/-- Payload of the partial update accepted by `updateTablet`
(`Partial<InsertTablet>`); only `status` and `condition` can generate
history events, the other columns are plain overwrites. -/
structure UpdateTablet where
  status : Option TabletStatus
  condition : Option TabletCondition
deriving DecidableEq, Repr

/-- `DatabaseStorage.createTablet`: insert the tablet (applying column
defaults for omitted status/condition) and append a `created` history
event dated now. -/
def createTablet (s : DB) (p : InsertTablet) (now : Nat) : DB × Tablet :=
  let newTablet : Tablet :=
    { id := s.nextTabletId
      brand := p.brand
      model := p.model
      serialNumber := p.serialNumber
      status := p.status.getD .Serviceable
      condition := p.condition.getD .Good }
  let ev : HistoryEvent :=
    { id := s.nextHistoryId
      tabletId := newTablet.id
      studentId := none
      borrowRecordId := none
      eventType := "created"
      date := now
      condition := some newTablet.condition
      accessories := none
      notes := some "Tablet added to inventory" }
  ({ s with
      tablets := s.tablets ++ [newTablet]
      tabletHistory := s.tabletHistory ++ [ev]
      nextTabletId := s.nextTabletId + 1
      nextHistoryId := s.nextHistoryId + 1 },
   newTablet)

/-- `DatabaseStorage.updateTablet`: `undefined` when the tablet does not
exist; otherwise overwrite the supplied fields and append a
`status_change` event iff a status was supplied and differs from the
old one, and a `condition_change` event iff a condition was supplied
and differs from the old one. -/
def updateTablet (s : DB) (id : Nat) (p : UpdateTablet) (now : Nat) :
    Option (DB × Tablet) :=
  match findTablet s id with
  | none => none
  | some oldTablet =>
    let updatedTablet : Tablet :=
      { oldTablet with
          status := p.status.getD oldTablet.status
          condition := p.condition.getD oldTablet.condition }
    let s1 : DB := { s with tablets := updateTabletRows s.tablets id (fun _ => updatedTablet) }
    let s2 : DB :=
      match p.status with
      | some st =>
        if st ≠ oldTablet.status then
          { s1 with
              tabletHistory := s1.tabletHistory ++
                [{ id := s1.nextHistoryId
                   tabletId := id
                   studentId := none
                   borrowRecordId := none
                   eventType := "status_change"
                   date := now
                   condition := some updatedTablet.condition
                   accessories := none
                   notes := some ("Status changed from " ++ statusText oldTablet.status
                     ++ " to " ++ statusText updatedTablet.status) }]
              nextHistoryId := s1.nextHistoryId + 1 }
        else s1
      | none => s1
    let s3 : DB :=
      match p.condition with
      | some c =>
        if c ≠ oldTablet.condition then
          { s2 with
              tabletHistory := s2.tabletHistory ++
                [{ id := s2.nextHistoryId
                   tabletId := id
                   studentId := none
                   borrowRecordId := none
                   eventType := "condition_change"
                   date := now
                   condition := some updatedTablet.condition
                   accessories := none
                   notes := some ("Condition changed from " ++ conditionText oldTablet.condition
                     ++ " to " ++ conditionText updatedTablet.condition) }]
              nextHistoryId := s2.nextHistoryId + 1 }
        else s2
      | none => s2
    some (s3, updatedTablet)

/-- `DatabaseStorage.deleteTablet`: refuse (returning `false`) when any
borrow record references the tablet, else delete the row. -/
def deleteTablet (s : DB) (id : Nat) : DB × Bool :=
  if 0 < (s.borrowRecords.filter (fun r => decide (r.tabletId = id))).length then
    (s, false)
  else
    ({ s with tablets := s.tablets.filter (fun t => decide (t.id ≠ id)) }, true)

/-- `DatabaseStorage.createBorrowRecord`.  Checks, in source order:
the student exists (outside the transaction), then inside the
transaction: no open borrow record for the tablet, the tablet exists,
the tablet is Serviceable.  On success inserts the new open record and
appends a `borrowed` history event carrying the condition and
accessories snapshot. -/
def createBorrowRecord (s : DB) (p : InsertBorrowRecord) :
    Except String (DB × BorrowRecord) :=
  match findStudent s p.studentId with
  | none => .error ("Student with ID " ++ toString p.studentId ++ " not found")
  | some student =>
    match openRecordFor s p.tabletId with
    | some _ => .error "Tablet is already borrowed"
    | none =>
      match findTablet s p.tabletId with
      | none => .error "Tablet not found"
      | some tablet =>
        if tablet.status ≠ .Serviceable then
          .error ("Tablet is not serviceable: " ++ statusText tablet.status)
        else
          let newRecord : BorrowRecord :=
            { id := s.nextBorrowId
              tabletId := p.tabletId
              studentId := p.studentId
              dateBorrowed := p.dateBorrowed
              expectedReturnDate := p.expectedReturnDate
              accessories := p.accessories
              condition := p.condition
              notes := p.notes
              isReturned := false
              returnDate := none
              returnCondition := none
              returnNotes := none }
          let ev : HistoryEvent :=
            { id := s.nextHistoryId
              tabletId := p.tabletId
              studentId := some p.studentId
              borrowRecordId := some newRecord.id
              eventType := "borrowed"
              date := newRecord.dateBorrowed
              condition := some p.condition
              accessories := some p.accessories
              notes := some ("Borrowed by " ++ displayName student ++ " (" ++ student.studentId
                ++ "). Accessories: " ++ accessoriesJson p.accessories) }
          .ok ({ s with
                  borrowRecords := s.borrowRecords ++ [newRecord]
                  tabletHistory := s.tabletHistory ++ [ev]
                  nextBorrowId := s.nextBorrowId + 1
                  nextHistoryId := s.nextHistoryId + 1 },
               newRecord)

/-- `DatabaseStorage.processReturn`.  Requires the record to exist and
to be open and the student to exist; then writes the caller-supplied
closure fields (including the caller-supplied `isReturned` flag) onto
the record, overwrites the tablet's condition with the return
condition, and appends a `returned` history event whose accessories
snapshot is copied from the stored record. -/
def processReturn (s : DB) (id : Nat) (returnData : UpdateBorrowRecordForReturn) :
    Except String (DB × BorrowRecord) :=
  match findBorrowRecord s id with
  | none => .error "Borrow record not found"
  | some borrowRecord =>
    if borrowRecord.isReturned then .error "Tablet has already been returned"
    else
      match findStudent s borrowRecord.studentId with
      | none => .error "Student not found"
      | some student =>
        let updatedRecord : BorrowRecord :=
          { borrowRecord with
              isReturned := returnData.isReturned
              returnDate := some returnData.returnDate
              returnCondition := some returnData.returnCondition
              returnNotes := returnData.returnNotes }
        let ev : HistoryEvent :=
          { id := s.nextHistoryId
            tabletId := borrowRecord.tabletId
            studentId := some borrowRecord.studentId
            borrowRecordId := some id
            eventType := "returned"
            date := returnData.returnDate
            condition := some returnData.returnCondition
            accessories := some borrowRecord.accessories
            notes := some ("Returned by " ++ displayName student ++ " (" ++ student.studentId
              ++ "). Return condition: " ++ conditionText returnData.returnCondition
              ++ ". Accessories returned: " ++ accessoriesJson borrowRecord.accessories) }
        .ok ({ s with
                borrowRecords := updateBorrowRows s.borrowRecords id (fun _ => updatedRecord)
                tablets := updateTabletRows s.tablets borrowRecord.tabletId
                  (fun t => { t with condition := returnData.returnCondition })
                tabletHistory := s.tabletHistory ++ [ev]
                nextHistoryId := s.nextHistoryId + 1 },
             updatedRecord)

/-- JavaScript `lostReport.details || 'Tablet reported as lost'`
(`||` also falls through on the empty string). -/
def lostNotes (details : Option String) : String :=
  match details with
  | some d => if d = "" then "Tablet reported as lost" else d
  | none => "Tablet reported as lost"

/-- `DatabaseStorage.createLostReport`.  No existence check on the
tablet: the status update silently matches zero rows when the tablet
id is absent.  If a borrow-record id is supplied and that record is
open it is forcibly closed (leaving `returnCondition` untouched); then
the lost report is inserted and a `lost` history event appended. -/
def createLostReport (s : DB) (p : InsertLostReport) : DB × LostReport :=
  let s1 : DB :=
    { s with tablets := updateTabletRows s.tablets p.tabletId (fun t => { t with status := .Lost }) }
  let s2 : DB :=
    match p.borrowRecordId with
    | some brId =>
      match findBorrowRecord s1 brId with
      | some borrowRecord =>
        if borrowRecord.isReturned = false then
          { s1 with
              borrowRecords := updateBorrowRows s1.borrowRecords brId (fun r =>
                { r with
                    isReturned := true
                    returnDate := some p.dateReported
                    returnNotes := some "Tablet reported as lost" }) }
        else s1
      | none => s1
    | none => s1
  let newReport : LostReport :=
    { id := s2.nextLostId
      tabletId := p.tabletId
      borrowRecordId := p.borrowRecordId
      studentId := p.studentId
      dateReported := p.dateReported
      details := p.details
      documentPath := p.documentPath }
  let ev : HistoryEvent :=
    { id := s2.nextHistoryId
      tabletId := p.tabletId
      studentId := some p.studentId
      borrowRecordId := p.borrowRecordId
      eventType := "lost"
      date := p.dateReported
      condition := none
      accessories := none
      notes := some (lostNotes p.details) }
  ({ s2 with
      lostReports := s2.lostReports ++ [newReport]
      tabletHistory := s2.tabletHistory ++ [ev]
      nextLostId := s2.nextLostId + 1
      nextHistoryId := s2.nextHistoryId + 1 },
   newReport)

/-- `DatabaseStorage.getAvailableTablets`: tablets that are Serviceable
and whose id is not among the tablet ids of open borrow records.  The
source special-cases an empty borrowed-id list (skipping the `NOT IN`
clause); both branches are kept. -/
def getAvailableTablets (s : DB) : List Tablet :=
  let borrowedIds : List Nat :=
    (s.borrowRecords.filter (fun r => decide (r.isReturned = false))).map (fun r => r.tabletId)
  if 0 < borrowedIds.length then
    s.tablets.filter (fun t => decide (t.status = .Serviceable) && !(borrowedIds.contains t.id))
  else
    s.tablets.filter (fun t => decide (t.status = .Serviceable))

/-- The availability query of the spec, read off `getAvailableTablets`:
a device is available iff it appears in the available list. -/
def isDeviceAvailable (s : DB) (tabletId : Nat) : Bool :=
  (getAvailableTablets s).any (fun t => decide (t.id = tabletId))

/-- Number of open borrow records referencing a given tablet. -/
def openLoanCount (s : DB) (tabletId : Nat) : Nat :=
  (s.borrowRecords.filter (fun r => decide (r.tabletId = tabletId ∧ r.isReturned = false))).length

/-- The one-open-loan-per-device invariant. -/
def atMostOneOpenLoan (s : DB) : Prop :=
  ∀ tabletId, openLoanCount s tabletId ≤ 1

/-- The state-changing operations of the ledger (every storage method
that writes the `tablets`, `borrow_records`, `lost_reports` or
`tablet_history` tables; student CRUD touches none of them). -/
inductive LedgerOp
  | createTabletOp (p : InsertTablet) (now : Nat)
  | updateTabletOp (id : Nat) (p : UpdateTablet) (now : Nat)
  | deleteTabletOp (id : Nat)
  | createBorrowRecordOp (p : InsertBorrowRecord)
  | processReturnOp (id : Nat) (returnData : UpdateBorrowRecordForReturn)
  | createLostReportOp (p : InsertLostReport)

/-- State after running one ledger operation; a thrown error aborts the
transaction, leaving the state unchanged. -/
def applyOp (s : DB) : LedgerOp → DB
  | .createTabletOp p now => (createTablet s p now).1
  | .updateTabletOp id p now =>
    match updateTablet s id p now with
    | some (s2, _) => s2
    | none => s
  | .deleteTabletOp id => (deleteTablet s id).1
  | .createBorrowRecordOp p =>
    match createBorrowRecord s p with
    | .ok (s2, _) => s2
    | .error _ => s
  | .processReturnOp id returnData =>
    match processReturn s id returnData with
    | .ok (s2, _) => s2
    | .error _ => s
  | .createLostReportOp p => (createLostReport s p).1

/-! ### General lemmas about the embedded store -/

/-- An `UPDATE ... WHERE id = k` whose SET clause keeps the id of every
matched row commutes with lookup by id on borrow records. -/
theorem find?_updateBorrowRows (l : List BorrowRecord) (k q : Nat)
    (f : BorrowRecord → BorrowRecord) (hf : ∀ r : BorrowRecord, r.id = k → (f r).id = r.id) :
    (updateBorrowRows l k f).find? (fun r => decide (r.id = q)) =
      ((l.find? (fun r => decide (r.id = q))).map (fun r => if r.id = k then f r else r)) := by
  unfold updateBorrowRows
  rw [List.find?_map]
  have hpg : ((fun r : BorrowRecord => decide (r.id = q)) ∘ fun r => if r.id = k then f r else r)
      = (fun r : BorrowRecord => decide (r.id = q)) := by
    funext r
    by_cases hr : r.id = k
    · simp [Function.comp, hr, hf r hr]
    · simp [Function.comp, hr]
  rw [hpg]

/-- The tablets analogue of `find?_updateBorrowRows`. -/
theorem find?_updateTabletRows (l : List Tablet) (k q : Nat)
    (f : Tablet → Tablet) (hf : ∀ t : Tablet, t.id = k → (f t).id = t.id) :
    (updateTabletRows l k f).find? (fun t => decide (t.id = q)) =
      ((l.find? (fun t => decide (t.id = q))).map (fun t => if t.id = k then f t else t)) := by
  unfold updateTabletRows
  rw [List.find?_map]
  have hpg : ((fun t : Tablet => decide (t.id = q)) ∘ fun t => if t.id = k then f t else t)
      = (fun t : Tablet => decide (t.id = q)) := by
    funext t
    by_cases ht : t.id = k
    · simp [Function.comp, ht, hf t ht]
    · simp [Function.comp, ht]
  rw [hpg]

/-- An update that matches no row is the identity (tablets). -/
theorem updateTabletRows_of_absent (l : List Tablet) (k : Nat) (f : Tablet → Tablet)
    (h : l.find? (fun t => decide (t.id = k)) = none) :
    updateTabletRows l k f = l := by
  rw [List.find?_eq_none] at h
  unfold updateTabletRows
  have : ∀ t ∈ l, (if t.id = k then f t else t) = id t := by
    intro t ht
    have := h t ht
    simp only [decide_eq_true_eq] at this
    simp [this]
  rw [List.map_congr_left this, List.map_id]

/-- `openLoanCount` as a `countP`. -/
theorem openLoanCount_eq_countP (s : DB) (tabletId : Nat) :
    openLoanCount s tabletId =
      s.borrowRecords.countP (fun r => decide (r.tabletId = tabletId ∧ r.isReturned = false)) := by
  rw [openLoanCount, List.countP_eq_length_filter]

/-- If the availability check of `createBorrowRecord` finds nothing,
the open-loan count of that tablet is zero. -/
theorem openLoanCount_eq_zero (s : DB) (tabletId : Nat)
    (h : openRecordFor s tabletId = none) : openLoanCount s tabletId = 0 := by
  rw [openRecordFor, List.find?_eq_none] at h
  rw [openLoanCount_eq_countP]
  rw [List.countP_eq_zero]
  exact h

/-! ### Success and failure characterizations of the operations -/

/-- Row inserted on a successful borrow (the insert payload, with the
column defaults of the omitted closure fields). -/
def insertedBorrowRow (s : DB) (p : InsertBorrowRecord) : BorrowRecord :=
  { id := s.nextBorrowId
    tabletId := p.tabletId
    studentId := p.studentId
    dateBorrowed := p.dateBorrowed
    expectedReturnDate := p.expectedReturnDate
    accessories := p.accessories
    condition := p.condition
    notes := p.notes
    isReturned := false
    returnDate := none
    returnCondition := none
    returnNotes := none }

/-- History row inserted on a successful borrow. -/
def borrowedEventRow (s : DB) (p : InsertBorrowRecord) (student : Student) : HistoryEvent :=
  { id := s.nextHistoryId
    tabletId := p.tabletId
    studentId := some p.studentId
    borrowRecordId := some s.nextBorrowId
    eventType := "borrowed"
    date := p.dateBorrowed
    condition := some p.condition
    accessories := some p.accessories
    notes := some ("Borrowed by " ++ displayName student ++ " (" ++ student.studentId
      ++ "). Accessories: " ++ accessoriesJson p.accessories) }

/-- A borrow request for an unknown student fails first, with the
student-not-found message. -/
theorem createBorrowRecord_err_student {s : DB} {p : InsertBorrowRecord}
    (hstu : findStudent s p.studentId = none) :
    createBorrowRecord s p =
      .error ("Student with ID " ++ toString p.studentId ++ " not found") := by
  unfold createBorrowRecord
  simp only [hstu]

/-- With the student known, an open borrow record on the tablet makes
the request fail with the already-borrowed message (checked before the
tablet is even looked up). -/
theorem createBorrowRecord_err_open {s : DB} {p : InsertBorrowRecord}
    {student : Student} {r : BorrowRecord}
    (hstu : findStudent s p.studentId = some student)
    (hopen : openRecordFor s p.tabletId = some r) :
    createBorrowRecord s p = .error "Tablet is already borrowed" := by
  unfold createBorrowRecord
  simp only [hstu, hopen]

/-- With the student known and no open record, a missing tablet fails
with the tablet-not-found message. -/
theorem createBorrowRecord_err_tablet {s : DB} {p : InsertBorrowRecord}
    {student : Student}
    (hstu : findStudent s p.studentId = some student)
    (hopen : openRecordFor s p.tabletId = none)
    (htab : findTablet s p.tabletId = none) :
    createBorrowRecord s p = .error "Tablet not found" := by
  unfold createBorrowRecord
  simp only [hstu, hopen, htab]

/-- With the student known, no open record and the tablet present, a
non-Serviceable status fails with a message carrying the actual
status. -/
theorem createBorrowRecord_err_status {s : DB} {p : InsertBorrowRecord}
    {student : Student} {tablet : Tablet}
    (hstu : findStudent s p.studentId = some student)
    (hopen : openRecordFor s p.tabletId = none)
    (htab : findTablet s p.tabletId = some tablet)
    (hst : tablet.status ≠ .Serviceable) :
    createBorrowRecord s p =
      .error ("Tablet is not serviceable: " ++ statusText tablet.status) := by
  unfold createBorrowRecord
  simp only [hstu, hopen, htab]
  rw [if_pos hst]

/-- Introducing a successful `createBorrowRecord` from its
preconditions. -/
theorem createBorrowRecord_ok_intro {s : DB} {p : InsertBorrowRecord}
    {student : Student} {tablet : Tablet}
    (hstu : findStudent s p.studentId = some student)
    (hopen : openRecordFor s p.tabletId = none)
    (htab : findTablet s p.tabletId = some tablet)
    (hst : tablet.status = .Serviceable) :
    createBorrowRecord s p = .ok
      ({ s with
          borrowRecords := s.borrowRecords ++ [insertedBorrowRow s p]
          tabletHistory := s.tabletHistory ++ [borrowedEventRow s p student]
          nextBorrowId := s.nextBorrowId + 1
          nextHistoryId := s.nextHistoryId + 1 },
       insertedBorrowRow s p) := by
  unfold createBorrowRecord
  simp only [hstu, hopen, htab]
  rw [if_neg (by simp [hst])]
  rfl

/-- Eliminating a successful `createBorrowRecord`: all four checks
passed, the returned record is the freshly inserted open row, and the
new state extends the old one by that row plus one `borrowed` event. -/
theorem createBorrowRecord_ok_elim {s : DB} {p : InsertBorrowRecord} {s2 : DB}
    {rec : BorrowRecord} (h : createBorrowRecord s p = .ok (s2, rec)) :
    ∃ student tablet,
      findStudent s p.studentId = some student ∧
      openRecordFor s p.tabletId = none ∧
      findTablet s p.tabletId = some tablet ∧
      tablet.status = .Serviceable ∧
      rec = insertedBorrowRow s p ∧
      s2 = { s with
              borrowRecords := s.borrowRecords ++ [insertedBorrowRow s p]
              tabletHistory := s.tabletHistory ++ [borrowedEventRow s p student]
              nextBorrowId := s.nextBorrowId + 1
              nextHistoryId := s.nextHistoryId + 1 } := by
  cases hstu : findStudent s p.studentId with
  | none => rw [createBorrowRecord_err_student hstu] at h; exact absurd h (by simp)
  | some student =>
    cases hopen : openRecordFor s p.tabletId with
    | some r => rw [createBorrowRecord_err_open hstu hopen] at h; exact absurd h (by simp)
    | none =>
      cases htab : findTablet s p.tabletId with
      | none => rw [createBorrowRecord_err_tablet hstu hopen htab] at h; exact absurd h (by simp)
      | some tablet =>
        by_cases hst : tablet.status = .Serviceable
        · rw [createBorrowRecord_ok_intro hstu hopen htab hst] at h
          simp only [Except.ok.injEq, Prod.mk.injEq] at h
          exact ⟨student, tablet, rfl, rfl, rfl, hst, h.2.symm, h.1.symm⟩
        · rw [createBorrowRecord_err_status hstu hopen htab hst] at h
          exact absurd h (by simp)

/-- History row inserted on a successful return. -/
def returnedEventRow (s : DB) (id : Nat) (borrowRecord : BorrowRecord)
    (student : Student) (returnData : UpdateBorrowRecordForReturn) : HistoryEvent :=
  { id := s.nextHistoryId
    tabletId := borrowRecord.tabletId
    studentId := some borrowRecord.studentId
    borrowRecordId := some id
    eventType := "returned"
    date := returnData.returnDate
    condition := some returnData.returnCondition
    accessories := some borrowRecord.accessories
    notes := some ("Returned by " ++ displayName student ++ " (" ++ student.studentId
      ++ "). Return condition: " ++ conditionText returnData.returnCondition
      ++ ". Accessories returned: " ++ accessoriesJson borrowRecord.accessories) }

/-- Returning an unknown borrow record fails with the not-found
message. -/
theorem processReturn_err_missing {s : DB} {id : Nat}
    {returnData : UpdateBorrowRecordForReturn}
    (hrec : findBorrowRecord s id = none) :
    processReturn s id returnData = .error "Borrow record not found" := by
  unfold processReturn
  simp only [hrec]

/-- Returning an already-closed borrow record fails with the
already-returned message. -/
theorem processReturn_err_closed {s : DB} {id : Nat}
    {returnData : UpdateBorrowRecordForReturn} {borrowRecord : BorrowRecord}
    (hrec : findBorrowRecord s id = some borrowRecord)
    (hret : borrowRecord.isReturned = true) :
    processReturn s id returnData = .error "Tablet has already been returned" := by
  unfold processReturn
  simp only [hrec, hret]
  rfl

/-- Introducing a successful `processReturn` from its preconditions:
the closure fields (including the caller-supplied `isReturned` flag)
are written, the tablet condition is overwritten, one `returned` event
is appended. -/
theorem processReturn_ok_intro {s : DB} {id : Nat}
    {returnData : UpdateBorrowRecordForReturn} {borrowRecord : BorrowRecord}
    {student : Student}
    (hrec : findBorrowRecord s id = some borrowRecord)
    (hopen : borrowRecord.isReturned = false)
    (hstu : findStudent s borrowRecord.studentId = some student) :
    processReturn s id returnData = .ok
      ({ s with
          borrowRecords := updateBorrowRows s.borrowRecords id (fun _ =>
            { borrowRecord with
                isReturned := returnData.isReturned
                returnDate := some returnData.returnDate
                returnCondition := some returnData.returnCondition
                returnNotes := returnData.returnNotes })
          tablets := updateTabletRows s.tablets borrowRecord.tabletId
            (fun t => { t with condition := returnData.returnCondition })
          tabletHistory := s.tabletHistory ++ [returnedEventRow s id borrowRecord student returnData]
          nextHistoryId := s.nextHistoryId + 1 },
       { borrowRecord with
          isReturned := returnData.isReturned
          returnDate := some returnData.returnDate
          returnCondition := some returnData.returnCondition
          returnNotes := returnData.returnNotes }) := by
  unfold processReturn
  simp only [hrec, hopen, hstu]
  rfl

/-- Eliminating a successful `processReturn`. -/
theorem processReturn_ok_elim {s : DB} {id : Nat}
    {returnData : UpdateBorrowRecordForReturn} {s2 : DB} {upd : BorrowRecord}
    (h : processReturn s id returnData = .ok (s2, upd)) :
    ∃ borrowRecord student,
      findBorrowRecord s id = some borrowRecord ∧
      borrowRecord.isReturned = false ∧
      findStudent s borrowRecord.studentId = some student ∧
      upd = { borrowRecord with
                isReturned := returnData.isReturned
                returnDate := some returnData.returnDate
                returnCondition := some returnData.returnCondition
                returnNotes := returnData.returnNotes } ∧
      s2 = { s with
              borrowRecords := updateBorrowRows s.borrowRecords id (fun _ =>
                { borrowRecord with
                    isReturned := returnData.isReturned
                    returnDate := some returnData.returnDate
                    returnCondition := some returnData.returnCondition
                    returnNotes := returnData.returnNotes })
              tablets := updateTabletRows s.tablets borrowRecord.tabletId
                (fun t => { t with condition := returnData.returnCondition })
              tabletHistory := s.tabletHistory ++
                [returnedEventRow s id borrowRecord student returnData]
              nextHistoryId := s.nextHistoryId + 1 } := by
  cases hrec : findBorrowRecord s id with
  | none => rw [processReturn_err_missing hrec] at h; exact absurd h (by simp)
  | some borrowRecord =>
    cases hret : borrowRecord.isReturned with
    | true => rw [processReturn_err_closed hrec hret] at h; exact absurd h (by simp)
    | false =>
      cases hstu : findStudent s borrowRecord.studentId with
      | none =>
        unfold processReturn at h
        simp only [hrec, hret, hstu] at h
        simp at h
      | some student =>
        rw [processReturn_ok_intro hrec hret hstu] at h
        simp only [Except.ok.injEq, Prod.mk.injEq] at h
        exact ⟨borrowRecord, student, rfl, hret, hstu, h.2.symm, h.1.symm⟩

/-- Lookup of a borrow record is unaffected by replacing the tablets
table (the loss transaction updates tablets first). -/
theorem findBorrowRecord_set_tablets (s : DB) (l : List Tablet) (id : Nat) :
    findBorrowRecord { s with tablets := l } id = findBorrowRecord s id := rfl

/-- The lost report row inserted by `createLostReport`. -/
def lostReportRow (s : DB) (p : InsertLostReport) : LostReport :=
  { id := s.nextLostId
    tabletId := p.tabletId
    borrowRecordId := p.borrowRecordId
    studentId := p.studentId
    dateReported := p.dateReported
    details := p.details
    documentPath := p.documentPath }

/-- The history row inserted by `createLostReport`. -/
def lostEventRow (s : DB) (p : InsertLostReport) : HistoryEvent :=
  { id := s.nextHistoryId
    tabletId := p.tabletId
    studentId := some p.studentId
    borrowRecordId := p.borrowRecordId
    eventType := "lost"
    date := p.dateReported
    condition := none
    accessories := none
    notes := some (lostNotes p.details) }

/-- The forced closure applied to the open loan named by a loss
report: `isReturned` set, `returnDate := dateReported`, the fixed
return note, and `returnCondition` untouched. -/
def closeLostRow (dateReported : Nat) (r : BorrowRecord) : BorrowRecord :=
  { r with
      isReturned := true
      returnDate := some dateReported
      returnNotes := some "Tablet reported as lost" }

/-- `createLostReport` when the supplied borrow record exists and is
open: the tablet status is forced to Lost, the loan is forcibly
closed, one lost report and one `lost` history event are appended. -/
theorem createLostReport_spec_close {s : DB} {p : InsertLostReport}
    {brId : Nat} {br : BorrowRecord}
    (hbrid : p.borrowRecordId = some brId)
    (hbr : findBorrowRecord s brId = some br)
    (hopen : br.isReturned = false) :
    createLostReport s p =
      ({ s with
          tablets := updateTabletRows s.tablets p.tabletId (fun t => { t with status := .Lost })
          borrowRecords := updateBorrowRows s.borrowRecords brId (closeLostRow p.dateReported)
          lostReports := s.lostReports ++ [lostReportRow s p]
          tabletHistory := s.tabletHistory ++ [lostEventRow s p]
          nextLostId := s.nextLostId + 1
          nextHistoryId := s.nextHistoryId + 1 },
       lostReportRow s p) := by
  unfold createLostReport
  simp only [hbrid, findBorrowRecord_set_tablets, hbr]
  rw [if_pos hopen]
  have hclose : closeLostRow p.dateReported = fun r : BorrowRecord =>
      { r with
          isReturned := true
          returnDate := some p.dateReported
          returnNotes := some "Tablet reported as lost" } := by
    funext r
    rfl
  rw [hclose]
  simp [lostReportRow, lostEventRow, hbrid]

/-- `createLostReport` when no open loan gets closed (no record id
supplied, the record does not exist, or it is already returned): only
the tablet status update, one lost report and one `lost` event. -/
theorem createLostReport_spec_noclose {s : DB} {p : InsertLostReport}
    (h : p.borrowRecordId = none ∨
      (∃ brId, p.borrowRecordId = some brId ∧ findBorrowRecord s brId = none) ∨
      (∃ brId br, p.borrowRecordId = some brId ∧ findBorrowRecord s brId = some br ∧
        br.isReturned = true)) :
    createLostReport s p =
      ({ s with
          tablets := updateTabletRows s.tablets p.tabletId (fun t => { t with status := .Lost })
          lostReports := s.lostReports ++ [lostReportRow s p]
          tabletHistory := s.tabletHistory ++ [lostEventRow s p]
          nextLostId := s.nextLostId + 1
          nextHistoryId := s.nextHistoryId + 1 },
       lostReportRow s p) := by
  unfold createLostReport
  rcases h with hnone | ⟨brId, hbrid, hmiss⟩ | ⟨brId, br, hbrid, hbr, hret⟩
  · simp only [hnone]
    simp [lostReportRow, lostEventRow, hnone]
  · simp only [hbrid, findBorrowRecord_set_tablets, hmiss]
    simp [lostReportRow, lostEventRow, hbrid]
  · simp only [hbrid, findBorrowRecord_set_tablets, hbr]
    rw [if_neg (by simp [hret])]
    simp [lostReportRow, lostEventRow, hbrid]

/-- A guarded row update can only lose rows satisfying a predicate, as
long as on matched rows the predicate transfers backwards. -/
theorem countP_updateBorrowRows_le (l : List BorrowRecord) (k : Nat)
    (f : BorrowRecord → BorrowRecord) (pred : BorrowRecord → Bool)
    (h : ∀ r ∈ l, r.id = k → pred (f r) = true → pred r = true) :
    (updateBorrowRows l k f).countP pred ≤ l.countP pred := by
  unfold updateBorrowRows
  rw [List.countP_map]
  apply List.countP_mono_left
  intro r hr hp
  by_cases hk : r.id = k
  · simp only [Function.comp, hk, if_pos] at hp
    exact h r hr hk hp
  · simpa [Function.comp, hk] using hp

/-- `isDeviceAvailable` unfolded to its business meaning: the device
row exists with status Serviceable and no open borrow record
references the device.  The source's special case for an empty
borrowed-id list collapses into the same condition. -/
theorem isDeviceAvailable_iff (s : DB) (tid : Nat) :
    isDeviceAvailable s tid = true ↔
      ((∃ t ∈ s.tablets, t.id = tid ∧ t.status = .Serviceable) ∧
       ∀ r ∈ s.borrowRecords, r.isReturned = false → r.tabletId ≠ tid) := by
  unfold isDeviceAvailable getAvailableTablets
  by_cases hL : 0 <
      ((s.borrowRecords.filter (fun r => decide (r.isReturned = false))).map
        (fun r => r.tabletId)).length
  · rw [if_pos hL]
    simp only [List.any_eq_true, List.mem_filter, Bool.and_eq_true, decide_eq_true_eq,
      Bool.not_eq_true']
    constructor
    · rintro ⟨t, ⟨hmem, hserv, hnc⟩, hid⟩
      refine ⟨⟨t, hmem, hid, hserv⟩, ?_⟩
      intro r hr hopen htid
      have hin : t.id ∈ (s.borrowRecords.filter
          (fun r => decide (r.isReturned = false))).map (fun r => r.tabletId) := by
        refine List.mem_map.mpr ⟨r, ?_, ?_⟩
        · exact List.mem_filter.mpr ⟨hr, by simp [hopen]⟩
        · rw [htid, hid]
      rw [List.contains_eq_any_beq] at hnc
      have hany : ((s.borrowRecords.filter (fun r => decide (r.isReturned = false))).map
          (fun r => r.tabletId)).any (fun x => t.id == x) = true := by
        refine List.any_eq_true.mpr ⟨t.id, hin, ?_⟩
        simp
      rw [hany] at hnc
      exact absurd hnc (by simp)
    · rintro ⟨⟨t, hmem, hid, hserv⟩, hnone⟩
      refine ⟨t, ⟨hmem, hserv, ?_⟩, hid⟩
      rw [List.contains_eq_any_beq]
      by_contra hc
      simp only [Bool.not_eq_false, List.any_eq_true, beq_iff_eq] at hc
      obtain ⟨x, hx, hxid⟩ := hc
      obtain ⟨r, hrmem, hrtid⟩ := List.mem_map.mp hx
      have hopen : r.isReturned = false := by
        have := (List.mem_filter.mp hrmem).2
        simpa using this
      exact hnone r (List.mem_filter.mp hrmem).1 hopen (hrtid.trans (hxid ▸ hid))
  · rw [if_neg hL]
    have hempty : (s.borrowRecords.filter (fun r => decide (r.isReturned = false))) = [] := by
      have := Nat.eq_zero_of_not_pos hL
      rw [List.length_eq_zero] at this
      exact List.map_eq_nil_iff.mp this
    have hnoopen : ∀ r ∈ s.borrowRecords, r.isReturned = false → r.tabletId ≠ tid := by
      intro r hr hopen
      have := List.filter_eq_nil_iff.mp hempty r hr
      simp [hopen] at this
    simp only [List.any_eq_true, List.mem_filter, Bool.and_eq_true, decide_eq_true_eq]
    constructor
    · rintro ⟨t, ⟨hmem, hserv⟩, hid⟩
      exact ⟨⟨t, hmem, hid, hserv⟩, hnoopen⟩
    · rintro ⟨⟨t, hmem, hid, hserv⟩, _⟩
      exact ⟨t, ⟨hmem, hserv⟩, hid⟩

/-- `updateTablet` never touches the borrow records (nor lost
reports). -/
theorem updateTablet_frame {s : DB} {id : Nat} {p : UpdateTablet} {now : Nat}
    {s2 : DB} {t2 : Tablet} (h : updateTablet s id p now = some (s2, t2)) :
    s2.borrowRecords = s.borrowRecords ∧ s2.lostReports = s.lostReports ∧
    s2.nextBorrowId = s.nextBorrowId := by
  unfold updateTablet at h
  cases htab : findTablet s id with
  | none => simp only [htab] at h; exact absurd h (by simp)
  | some old =>
    simp only [htab, Option.some.injEq, Prod.mk.injEq] at h
    obtain ⟨hs, _⟩ := h
    subst hs
    repeat' split
    all_goals exact ⟨rfl, rfl, rfl⟩

/-! ### Concrete fixtures used by witnesses and counterexamples -/

/-- A registered student. -/
def bStu : Student :=
  { id := 1, studentId := "S-1", lastName := "Doe", firstName := "Jan", fullName := "Jan Doe" }

/-- A Serviceable tablet in Good condition. -/
def bTab : Tablet :=
  { id := 1, brand := "Acme", model := "T1", serialNumber := "SN1",
    status := .Serviceable, condition := .Good }

/-- Accessories handed over: charger only. -/
def bAcc : Accessories := { charger := true, cable := false, box := false }

/-- Initial store: one student, one available tablet, no loans. -/
def baseDB : DB :=
  { students := [bStu], tablets := [bTab], borrowRecords := [], lostReports := [],
    tabletHistory := [], nextTabletId := 2, nextBorrowId := 1, nextLostId := 1,
    nextHistoryId := 1 }

/-- The borrow request used throughout the fixtures. -/
def bIns : InsertBorrowRecord :=
  { tabletId := 1, studentId := 1, dateBorrowed := 10, expectedReturnDate := none,
    accessories := bAcc, condition := .Good, notes := none }

/-- The open loan row created by borrowing from `baseDB`. -/
def openRec : BorrowRecord := insertedBorrowRow baseDB bIns

/-- Store after the borrow succeeded. -/
def borrowedDB : DB :=
  { baseDB with
      borrowRecords := [openRec]
      tabletHistory := [borrowedEventRow baseDB bIns bStu]
      nextBorrowId := 2
      nextHistoryId := 2 }

/-- The loan row after a completed return. -/
def closedRec : BorrowRecord :=
  { openRec with
      isReturned := true
      returnDate := some 20
      returnCondition := some .Fair
      returnNotes := none }

/-- A store holding one already-returned loan. -/
def returnedDB : DB := { baseDB with borrowRecords := [closedRec], nextBorrowId := 2 }

/-- A normal return payload (`isReturned = true`). -/
def rdTrue : UpdateBorrowRecordForReturn :=
  { isReturned := true, returnDate := 20, returnCondition := .Fair,
    returnNotes := some "minor scratch" }

/-- A return payload carrying `isReturned = false`. -/
def rdFalse : UpdateBorrowRecordForReturn :=
  { isReturned := false, returnDate := 20, returnCondition := .Fair, returnNotes := none }

/-! ### Claim C3 -/

/-- C3: on a loan that is already returned (`isReturned = true`), a
second `processReturn` fails with the already-returned conflict and,
the transaction aborting, the whole store is left unchanged (no second
`returned` event, no change to the loan, the device or the history). -/
theorem claim_C3_second_return_conflict (s : DB) (id : Nat)
    (returnData : UpdateBorrowRecordForReturn) (br : BorrowRecord)
    (hrec : findBorrowRecord s id = some br) (hret : br.isReturned = true) :
    processReturn s id returnData = .error "Tablet has already been returned" ∧
    applyOp s (.processReturnOp id returnData) = s := by
  have he := @processReturn_err_closed s id returnData br hrec hret
  refine ⟨he, ?_⟩
  show (match processReturn s id returnData with
        | Except.ok (s2, _) => s2
        | Except.error _ => s) = s
  rw [he]

/-- Witness for C3 on the concrete one-closed-loan store. -/
theorem claim_C3_second_return_conflict_witness :
    processReturn returnedDB 1 rdTrue = .error "Tablet has already been returned" ∧
    applyOp returnedDB (.processReturnOp 1 rdTrue) = returnedDB :=
  claim_C3_second_return_conflict returnedDB 1 rdTrue closedRec (by decide) (by decide)

/-! ### Claim C4 -/

/-- C4: a successful `createLoan` inserts exactly one new loan row —
open, carrying the supplied fields — and appends exactly one
`borrowed` history event capturing the condition and accessories
snapshot; the tablets, students and lost-report tables are untouched
(in particular device status and condition are not altered). -/
theorem claim_C4_borrow_frame (s : DB) (p : InsertBorrowRecord) (s2 : DB)
    (rec : BorrowRecord) (h : createBorrowRecord s p = .ok (s2, rec)) :
    rec.isReturned = false ∧
    rec.tabletId = p.tabletId ∧ rec.studentId = p.studentId ∧
    rec.dateBorrowed = p.dateBorrowed ∧ rec.expectedReturnDate = p.expectedReturnDate ∧
    rec.accessories = p.accessories ∧ rec.condition = p.condition ∧ rec.notes = p.notes ∧
    s2.borrowRecords = s.borrowRecords ++ [rec] ∧
    (∃ ev, s2.tabletHistory = s.tabletHistory ++ [ev] ∧
      ev.eventType = "borrowed" ∧ ev.borrowRecordId = some rec.id ∧
      ev.condition = some p.condition ∧ ev.accessories = some p.accessories) ∧
    s2.tablets = s.tablets ∧ s2.students = s.students ∧ s2.lostReports = s.lostReports := by
  obtain ⟨student, tablet, _, _, _, _, hrec, hs2⟩ := createBorrowRecord_ok_elim h
  subst hrec
  subst hs2
  exact ⟨rfl, rfl, rfl, rfl, rfl, rfl, rfl, rfl, rfl,
    ⟨borrowedEventRow s p student, rfl, rfl, rfl, rfl, rfl⟩, rfl, rfl, rfl⟩

/-- Witness for C4 on the concrete borrow from `baseDB`. -/
theorem claim_C4_borrow_frame_witness :
    openRec.isReturned = false ∧
    openRec.tabletId = bIns.tabletId ∧ openRec.studentId = bIns.studentId ∧
    openRec.dateBorrowed = bIns.dateBorrowed ∧
    openRec.expectedReturnDate = bIns.expectedReturnDate ∧
    openRec.accessories = bIns.accessories ∧ openRec.condition = bIns.condition ∧
    openRec.notes = bIns.notes ∧
    borrowedDB.borrowRecords = baseDB.borrowRecords ++ [openRec] ∧
    (∃ ev, borrowedDB.tabletHistory = baseDB.tabletHistory ++ [ev] ∧
      ev.eventType = "borrowed" ∧ ev.borrowRecordId = some openRec.id ∧
      ev.condition = some bIns.condition ∧ ev.accessories = some bIns.accessories) ∧
    borrowedDB.tablets = baseDB.tablets ∧ borrowedDB.students = baseDB.students ∧
    borrowedDB.lostReports = baseDB.lostReports :=
  claim_C4_borrow_frame baseDB bIns borrowedDB openRec rfl

/-! ### Observational lookup facts after a successful return -/

/-- A record found by id satisfies the id predicate. -/
theorem findBorrowRecord_id {s : DB} {id : Nat} {br : BorrowRecord}
    (h : findBorrowRecord s id = some br) : br.id = id := by
  unfold findBorrowRecord at h
  have := List.find?_some h
  simpa using this

/-- A tablet found by id satisfies the id predicate. -/
theorem findTablet_id {s : DB} {id : Nat} {t : Tablet}
    (h : findTablet s id = some t) : t.id = id := by
  unfold findTablet at h
  have := List.find?_some h
  simpa using this

/-- After a successful `processReturn`, looking the loan and the
device back up shows the written closure fields and the overwritten
condition; one `returned` event is appended and the other tables are
untouched. -/
theorem processReturn_ok_lookup {s : DB} {id : Nat}
    {returnData : UpdateBorrowRecordForReturn} {borrowRecord : BorrowRecord}
    {student : Student} {t : Tablet}
    (hrec : findBorrowRecord s id = some borrowRecord)
    (hopen : borrowRecord.isReturned = false)
    (hstu : findStudent s borrowRecord.studentId = some student)
    (htab : findTablet s borrowRecord.tabletId = some t) :
    ∃ s2 upd, processReturn s id returnData = .ok (s2, upd) ∧
      upd = { borrowRecord with
                isReturned := returnData.isReturned
                returnDate := some returnData.returnDate
                returnCondition := some returnData.returnCondition
                returnNotes := returnData.returnNotes } ∧
      findBorrowRecord s2 id = some upd ∧
      findTablet s2 borrowRecord.tabletId =
        some { t with condition := returnData.returnCondition } ∧
      s2.tabletHistory = s.tabletHistory ++ [returnedEventRow s id borrowRecord student returnData] ∧
      s2.lostReports = s.lostReports ∧ s2.students = s.students := by
  have hbrid : borrowRecord.id = id := findBorrowRecord_id hrec
  have htid : t.id = borrowRecord.tabletId := findTablet_id htab
  refine ⟨_, _, processReturn_ok_intro hrec hopen hstu, rfl, ?_, ?_, rfl, rfl, rfl⟩
  · show (updateBorrowRows s.borrowRecords id _).find? (fun r => decide (r.id = id)) = _
    rw [find?_updateBorrowRows s.borrowRecords id id
      (fun _ => { borrowRecord with
          isReturned := returnData.isReturned
          returnDate := some returnData.returnDate
          returnCondition := some returnData.returnCondition
          returnNotes := returnData.returnNotes })
      (fun r hr => by rw [hbrid]; exact hr.symm)]
    unfold findBorrowRecord at hrec
    rw [hrec]
    simp [hbrid]
  · show (updateTabletRows s.tablets borrowRecord.tabletId _).find?
        (fun x => decide (x.id = borrowRecord.tabletId)) = _
    rw [find?_updateTabletRows s.tablets borrowRecord.tabletId borrowRecord.tabletId
      (fun x => { x with condition := returnData.returnCondition })
      (fun x _ => rfl)]
    unfold findTablet at htab
    rw [htab]
    simp [htid]

/-! ### Claim C10 -/

/-- C10: `processReturn` persists the caller-supplied `isReturned`
flag instead of forcing it to `true`: with a payload carrying
`isReturned = false` the call still succeeds on an open loan,
overwrites the device condition with the supplied return condition and
appends a `returned` history event, yet the stored loan remains open
(`isReturned = false`). -/
theorem claim_C10_flag_persisted (s : DB) (id : Nat)
    (returnData : UpdateBorrowRecordForReturn) (br : BorrowRecord)
    (student : Student) (t : Tablet)
    (hrec : findBorrowRecord s id = some br) (hopen : br.isReturned = false)
    (hstu : findStudent s br.studentId = some student)
    (htab : findTablet s br.tabletId = some t)
    (hflag : returnData.isReturned = false) :
    ∃ s2 upd, processReturn s id returnData = .ok (s2, upd) ∧
      upd.isReturned = false ∧
      findBorrowRecord s2 id = some upd ∧
      findTablet s2 br.tabletId = some { t with condition := returnData.returnCondition } ∧
      (∃ ev, s2.tabletHistory = s.tabletHistory ++ [ev] ∧ ev.eventType = "returned") := by
  obtain ⟨s2, upd, hok, hupd, hfind, htfind, hhist, _, _⟩ :=
    @processReturn_ok_lookup s id returnData br student t hrec hopen hstu htab
  refine ⟨s2, upd, hok, ?_, hfind, htfind, ⟨_, hhist, rfl⟩⟩
  rw [hupd]
  exact hflag

/-- Witness for C10: returning the concrete open loan with an
`isReturned = false` payload leaves it open. -/
theorem claim_C10_flag_persisted_witness :
    ∃ s2 upd, processReturn borrowedDB 1 rdFalse = .ok (s2, upd) ∧
      upd.isReturned = false ∧
      findBorrowRecord s2 1 = some upd ∧
      findTablet s2 openRec.tabletId = some { bTab with condition := rdFalse.returnCondition } ∧
      (∃ ev, s2.tabletHistory = borrowedDB.tabletHistory ++ [ev] ∧ ev.eventType = "returned") :=
  claim_C10_flag_persisted borrowedDB 1 rdFalse openRec bStu bTab
    (by decide) (by decide) (by decide) (by decide) (by decide)

/-! ### Claim C2 -/

/-- C2 (amended): for every open loan, a `processReturn` call whose
payload carries `isReturned = true` — the normal return request —
closes the loan with the supplied `returnDate`, `returnCondition` and
`returnNotes`, overwrites the device condition with the return
condition while leaving the device status unchanged, and appends
exactly one `returned` history event whose accessories snapshot is
copied from the stored loan; lost reports and students are untouched.
(The unamended claim — that `processReturn` always sets
`isReturned = true` — fails because the flag is taken from the
payload, see the counterexample.) -/
theorem claim_C2_return_effects (s : DB) (id : Nat)
    (returnData : UpdateBorrowRecordForReturn) (br : BorrowRecord)
    (student : Student) (t : Tablet)
    (hrec : findBorrowRecord s id = some br) (hopen : br.isReturned = false)
    (hstu : findStudent s br.studentId = some student)
    (htab : findTablet s br.tabletId = some t)
    (hflag : returnData.isReturned = true) :
    ∃ s2 upd, processReturn s id returnData = .ok (s2, upd) ∧
      upd.isReturned = true ∧
      upd.returnDate = some returnData.returnDate ∧
      upd.returnCondition = some returnData.returnCondition ∧
      upd.returnNotes = returnData.returnNotes ∧
      findBorrowRecord s2 id = some upd ∧
      findTablet s2 br.tabletId = some { t with condition := returnData.returnCondition } ∧
      Tablet.status { t with condition := returnData.returnCondition } = t.status ∧
      (∃ ev, s2.tabletHistory = s.tabletHistory ++ [ev] ∧
        ev.eventType = "returned" ∧ ev.accessories = some br.accessories ∧
        ev.borrowRecordId = some id ∧ ev.condition = some returnData.returnCondition) ∧
      s2.lostReports = s.lostReports ∧ s2.students = s.students := by
  obtain ⟨s2, upd, hok, hupd, hfind, htfind, hhist, hlost, hstud⟩ :=
    @processReturn_ok_lookup s id returnData br student t hrec hopen hstu htab
  subst hupd
  exact ⟨s2, _, hok, hflag, rfl, rfl, rfl, hfind, htfind, rfl,
    ⟨_, hhist, rfl, rfl, rfl, rfl⟩, hlost, hstud⟩

/-- Witness for C2 (amended) on the concrete open loan. -/
theorem claim_C2_return_effects_witness :
    ∃ s2 upd, processReturn borrowedDB 1 rdTrue = .ok (s2, upd) ∧
      upd.isReturned = true ∧
      upd.returnDate = some rdTrue.returnDate ∧
      upd.returnCondition = some rdTrue.returnCondition ∧
      upd.returnNotes = rdTrue.returnNotes ∧
      findBorrowRecord s2 1 = some upd ∧
      findTablet s2 openRec.tabletId = some { bTab with condition := rdTrue.returnCondition } ∧
      Tablet.status { bTab with condition := rdTrue.returnCondition } = bTab.status ∧
      (∃ ev, s2.tabletHistory = borrowedDB.tabletHistory ++ [ev] ∧
        ev.eventType = "returned" ∧ ev.accessories = some openRec.accessories ∧
        ev.borrowRecordId = some 1 ∧ ev.condition = some rdTrue.returnCondition) ∧
      s2.lostReports = borrowedDB.lostReports ∧ s2.students = borrowedDB.students :=
  claim_C2_return_effects borrowedDB 1 rdTrue openRec bStu bTab
    (by decide) (by decide) (by decide) (by decide) (by decide)

/-- State produced by returning the concrete open loan with an
`isReturned = false` payload. -/
def c2DB : DB :=
  match processReturn borrowedDB 1 rdFalse with
  | .ok (s2, _) => s2
  | .error _ => borrowedDB

/-- Record produced by returning the concrete open loan with an
`isReturned = false` payload. -/
def c2Rec : BorrowRecord :=
  match processReturn borrowedDB 1 rdFalse with
  | .ok (_, upd) => upd
  | .error _ => openRec

/-- Counterexample to C2 as stated: this `processReturn` call on an
open loan succeeds, overwrites the device condition and appends a
`returned` event, yet the loan it stores still has
`isReturned = false` — the operation did not set `isReturned = true`. -/
theorem claim_C2_counterexample :
    processReturn borrowedDB 1 rdFalse = .ok (c2DB, c2Rec) ∧
    c2Rec.isReturned = false ∧
    findBorrowRecord c2DB 1 = some c2Rec ∧
    (c2DB.tabletHistory.map (fun ev => ev.eventType)) = ["borrowed", "returned"] ∧
    (findTablet c2DB 1).map (fun t => t.condition) = some TabletCondition.Fair := by
  refine ⟨rfl, ?_, ?_, ?_, ?_⟩ <;> decide

/-! ### Claim C6 -/

/-- C6 (amended): `createBorrowRecord` checks its preconditions in the
order: (1) borrower exists — outside the transaction —, then inside
the transaction (2) no open loan for the device, (3) device exists,
(4) device status is Serviceable; the not-serviceable message carries
the device's actual status.  Consequently, for a device that is both
non-Serviceable and open-loaned the call fails with the
already-borrowed conflict, not the not-serviceable one (see the
counterexample). -/
theorem claim_C6_check_order :
    (∀ s p, findStudent s p.studentId = none →
      createBorrowRecord s p =
        .error ("Student with ID " ++ toString p.studentId ++ " not found")) ∧
    (∀ s p student r, findStudent s p.studentId = some student →
      openRecordFor s p.tabletId = some r →
      createBorrowRecord s p = .error "Tablet is already borrowed") ∧
    (∀ s p student, findStudent s p.studentId = some student →
      openRecordFor s p.tabletId = none → findTablet s p.tabletId = none →
      createBorrowRecord s p = .error "Tablet not found") ∧
    (∀ s p student tablet, findStudent s p.studentId = some student →
      openRecordFor s p.tabletId = none → findTablet s p.tabletId = some tablet →
      tablet.status ≠ .Serviceable →
      createBorrowRecord s p =
        .error ("Tablet is not serviceable: " ++ statusText tablet.status)) :=
  ⟨fun _ _ h => createBorrowRecord_err_student h,
   fun _ _ _ _ h1 h2 => createBorrowRecord_err_open h1 h2,
   fun _ _ _ h1 h2 h3 => createBorrowRecord_err_tablet h1 h2 h3,
   fun _ _ _ _ h1 h2 h3 h4 => createBorrowRecord_err_status h1 h2 h3 h4⟩

/-- A store whose tablet is Unserviceable while an open loan still
references it (the tablet was borrowed, then administratively marked
Unserviceable). -/
def unservOpenDB : DB :=
  { baseDB with
      tablets := [{ bTab with status := .Unserviceable }]
      borrowRecords := [openRec]
      nextBorrowId := 2 }

/-- Witness for C6 (amended): the not-serviceable branch fires — with
the actual status in the message — once no open loan exists, and the
already-borrowed branch fires on `unservOpenDB`. -/
theorem claim_C6_check_order_witness :
    createBorrowRecord { unservOpenDB with borrowRecords := [] } bIns =
      .error ("Tablet is not serviceable: " ++ statusText TabletStatus.Unserviceable) ∧
    createBorrowRecord unservOpenDB bIns = .error "Tablet is already borrowed" :=
  ⟨claim_C6_check_order.2.2.2 { unservOpenDB with borrowRecords := [] } bIns bStu
      { bTab with status := .Unserviceable } (by decide) (by decide) (by decide) (by decide),
   claim_C6_check_order.2.1 unservOpenDB bIns bStu openRec (by decide) (by decide)⟩

/-- Counterexample to C6 as stated: on a device that is both
non-Serviceable and open-loaned the call fails with the
already-borrowed message, not the not-serviceable one, because the
open-loan check runs before the status check (and the borrower check
runs before both, outside the transaction). -/
theorem claim_C6_counterexample :
    createBorrowRecord unservOpenDB bIns = .error "Tablet is already borrowed" ∧
    "Tablet is already borrowed" ≠
      "Tablet is not serviceable: " ++ statusText TabletStatus.Unserviceable := by
  exact ⟨rfl, by decide⟩

/-! ### Claim C5 -/

/-- C5 (amended): a loss report naming an open loan forcibly closes it
with `isReturned = true`, `returnDate = dateReported` and the fixed
return note `"Tablet reported as lost"` (the code's literal string),
leaving `returnCondition` untouched — hence still null for a normally
open loan; the device status is set to Lost with its condition
unchanged; one lost report row is inserted and one `lost` history
event appended.  (The unamended claim's note text
`"reported lost"` does not match the stored string, see the
counterexample.) -/
theorem claim_C5_loss_closes_loan (s : DB) (p : InsertLostReport)
    (brId : Nat) (br : BorrowRecord) (t : Tablet)
    (hbrid : p.borrowRecordId = some brId)
    (hbr : findBorrowRecord s brId = some br)
    (hopen : br.isReturned = false)
    (hrc : br.returnCondition = none)
    (htab : findTablet s p.tabletId = some t) :
    ∃ s2 rep, createLostReport s p = (s2, rep) ∧
      findBorrowRecord s2 brId = some
        { br with
            isReturned := true
            returnDate := some p.dateReported
            returnNotes := some "Tablet reported as lost" } ∧
      BorrowRecord.returnCondition
        { br with
            isReturned := true
            returnDate := some p.dateReported
            returnNotes := some "Tablet reported as lost" } = none ∧
      findTablet s2 p.tabletId = some { t with status := .Lost } ∧
      Tablet.condition { t with status := TabletStatus.Lost } = t.condition ∧
      s2.lostReports = s.lostReports ++ [rep] ∧
      rep.tabletId = p.tabletId ∧ rep.borrowRecordId = some brId ∧
      rep.dateReported = p.dateReported ∧
      (∃ ev, s2.tabletHistory = s.tabletHistory ++ [ev] ∧ ev.eventType = "lost") := by
  have hid : br.id = brId := findBorrowRecord_id hbr
  have htid : t.id = p.tabletId := findTablet_id htab
  rw [createLostReport_spec_close hbrid hbr hopen]
  refine ⟨_, _, rfl, ?_, hrc, ?_, rfl, rfl, rfl, ?_, rfl, ⟨lostEventRow s p, rfl, rfl⟩⟩
  · show (updateBorrowRows s.borrowRecords brId (closeLostRow p.dateReported)).find?
        (fun r => decide (r.id = brId)) = _
    rw [find?_updateBorrowRows s.borrowRecords brId brId (closeLostRow p.dateReported)
      (fun r _ => rfl)]
    unfold findBorrowRecord at hbr
    rw [hbr]
    simp [hid, closeLostRow]
  · show (updateTabletRows s.tablets p.tabletId (fun x => { x with status := .Lost })).find?
        (fun x => decide (x.id = p.tabletId)) = _
    rw [find?_updateTabletRows s.tablets p.tabletId p.tabletId
      (fun x => { x with status := .Lost }) (fun x _ => rfl)]
    unfold findTablet at htab
    rw [htab]
    simp [htid]
  · show p.borrowRecordId = some brId
    exact hbrid

/-- The loss report filed against the concrete open loan. -/
def lostIns : InsertLostReport :=
  { tabletId := 1, borrowRecordId := some 1, studentId := 1, dateReported := 30,
    details := none, documentPath := none }

/-- Witness for C5 (amended) on the concrete open loan. -/
theorem claim_C5_loss_closes_loan_witness :
    ∃ s2 rep, createLostReport borrowedDB lostIns = (s2, rep) ∧
      findBorrowRecord s2 1 = some
        { openRec with
            isReturned := true
            returnDate := some lostIns.dateReported
            returnNotes := some "Tablet reported as lost" } ∧
      BorrowRecord.returnCondition
        { openRec with
            isReturned := true
            returnDate := some lostIns.dateReported
            returnNotes := some "Tablet reported as lost" } = none ∧
      findTablet s2 lostIns.tabletId = some { bTab with status := .Lost } ∧
      Tablet.condition { bTab with status := TabletStatus.Lost } = bTab.condition ∧
      s2.lostReports = borrowedDB.lostReports ++ [rep] ∧
      rep.tabletId = lostIns.tabletId ∧ rep.borrowRecordId = some 1 ∧
      rep.dateReported = lostIns.dateReported ∧
      (∃ ev, s2.tabletHistory = borrowedDB.tabletHistory ++ [ev] ∧ ev.eventType = "lost") :=
  claim_C5_loss_closes_loan borrowedDB lostIns 1 openRec bTab
    (by decide) (by decide) (by decide) (by decide) (by decide)

/-- Store after filing the concrete loss report. -/
def c5DB : DB := (createLostReport borrowedDB lostIns).1

/-- Counterexample to C5 as stated: the forcibly closed loan stores
the note `"Tablet reported as lost"`, not `"reported lost"`. -/
theorem claim_C5_counterexample :
    (findBorrowRecord c5DB 1).map (fun r => r.returnNotes) =
      some (some "Tablet reported as lost") ∧
    some (some "Tablet reported as lost") ≠
      some (some ("reported lost" : String)) := by
  refine ⟨?_, ?_⟩ <;> decide

/-! ### Claim C7 -/

/-- C7 (amended): `createLostReport` performs no device-existence
check.  When the named device id has no row, the status update matches
nothing (the tablets table is unchanged) and the ledger still commits
the LossReport row and the `lost` history event against the
nonexistent device; no NotFound error is raised by the ledger code
(only the store's foreign-key constraint could stop the insert, and
that failure is not a NotFound surfaced by this operation). -/
theorem claim_C7_no_existence_check (s : DB) (p : InsertLostReport)
    (hmissing : findTablet s p.tabletId = none) :
    (createLostReport s p).1.tablets = s.tablets ∧
    (createLostReport s p).1.lostReports = s.lostReports ++ [(createLostReport s p).2] ∧
    ∃ ev, (createLostReport s p).1.tabletHistory = s.tabletHistory ++ [ev] ∧
      ev.eventType = "lost" ∧ ev.tabletId = p.tabletId := by
  have habsent : updateTabletRows s.tablets p.tabletId
      (fun t => { t with status := .Lost }) = s.tablets := by
    apply updateTabletRows_of_absent
    exact hmissing
  rcases hb : p.borrowRecordId with _ | brId
  · rw [createLostReport_spec_noclose (Or.inl hb)]
    exact ⟨habsent, rfl, ⟨lostEventRow s p, rfl, rfl, rfl⟩⟩
  · cases hfr : findBorrowRecord s brId with
    | none =>
      rw [createLostReport_spec_noclose (Or.inr (Or.inl ⟨brId, hb, hfr⟩))]
      exact ⟨habsent, rfl, ⟨lostEventRow s p, rfl, rfl, rfl⟩⟩
    | some br =>
      cases hro : br.isReturned with
      | true =>
        rw [createLostReport_spec_noclose (Or.inr (Or.inr ⟨brId, br, hb, hfr, hro⟩))]
        exact ⟨habsent, rfl, ⟨lostEventRow s p, rfl, rfl, rfl⟩⟩
      | false =>
        rw [createLostReport_spec_close hb hfr hro]
        exact ⟨habsent, rfl, ⟨lostEventRow s p, rfl, rfl, rfl⟩⟩

/-- A store without any tablet (or student) rows. -/
def emptyDB : DB :=
  { students := [], tablets := [], borrowRecords := [], lostReports := [],
    tabletHistory := [], nextTabletId := 1, nextBorrowId := 1, nextLostId := 1,
    nextHistoryId := 1 }

/-- A loss report naming a device id with no device row. -/
def ghostLossIns : InsertLostReport :=
  { tabletId := 7, borrowRecordId := none, studentId := 3, dateReported := 5,
    details := none, documentPath := none }

/-- Witness for C7 (amended) against the empty store. -/
theorem claim_C7_no_existence_check_witness :
    (createLostReport emptyDB ghostLossIns).1.tablets = emptyDB.tablets ∧
    (createLostReport emptyDB ghostLossIns).1.lostReports =
      emptyDB.lostReports ++ [(createLostReport emptyDB ghostLossIns).2] ∧
    ∃ ev, (createLostReport emptyDB ghostLossIns).1.tabletHistory =
        emptyDB.tabletHistory ++ [ev] ∧
      ev.eventType = "lost" ∧ ev.tabletId = ghostLossIns.tabletId :=
  claim_C7_no_existence_check emptyDB ghostLossIns (by decide)

/-- Counterexample to C7 as stated: against a store with no device row
for id 7 at all, `createLostReport` does not fail — it commits one
LossReport row and one `lost` history event referencing the
nonexistent device. -/
theorem claim_C7_counterexample :
    findTablet emptyDB 7 = none ∧
    (createLostReport emptyDB ghostLossIns).1.lostReports.length = 1 ∧
    ((createLostReport emptyDB ghostLossIns).1.tabletHistory.map (fun ev => ev.eventType)) =
      ["lost"] := by
  refine ⟨?_, ?_, ?_⟩ <;> decide

/-! ### Claim C9 -/

/-- Number of history rows of a given event type. -/
def countEventsOfType (l : List HistoryEvent) (ty : String) : Nat :=
  (l.filter (fun ev => decide (ev.eventType = ty))).length

theorem countEventsOfType_append (l1 l2 : List HistoryEvent) (ty : String) :
    countEventsOfType (l1 ++ l2) ty = countEventsOfType l1 ty + countEventsOfType l2 ty := by
  unfold countEventsOfType
  rw [List.filter_append, List.length_append]

theorem countEventsOfType_singleton (ev : HistoryEvent) (ty : String) :
    countEventsOfType [ev] ty = if ev.eventType = ty then 1 else 0 := by
  unfold countEventsOfType
  by_cases h : ev.eventType = ty
  · simp [h]
  · simp [h]

/-- C9: an out-of-band status/condition edit on an existing device
appends one `status_change` event iff a status was supplied that
differs from the old one, and one `condition_change` event iff a
condition was supplied that differs from the old one — zero extra
events otherwise; an edit supplying only current values (or nothing)
leaves the history untouched (no-op detection). -/
theorem claim_C9_edit_history (s : DB) (id : Nat) (p : UpdateTablet) (now : Nat)
    (old : Tablet) (htab : findTablet s id = some old) :
    ∃ s2 t2, updateTablet s id p now = some (s2, t2) ∧
      countEventsOfType s2.tabletHistory "status_change" =
        countEventsOfType s.tabletHistory "status_change" +
          (match p.status with
           | some st => if st = old.status then 0 else 1
           | none => 0) ∧
      countEventsOfType s2.tabletHistory "condition_change" =
        countEventsOfType s.tabletHistory "condition_change" +
          (match p.condition with
           | some c => if c = old.condition then 0 else 1
           | none => 0) ∧
      ((p.status = none ∨ p.status = some old.status) →
       (p.condition = none ∨ p.condition = some old.condition) →
        s2.tabletHistory = s.tabletHistory) := by
  unfold updateTablet
  simp only [htab]
  rcases hps : p.status with _ | st <;> rcases hpc : p.condition with _ | c <;> simp only []
  · exact ⟨_, _, rfl, by simp, by simp, fun _ _ => rfl⟩
  · by_cases hce : c = old.condition
    · have hnc : ¬(c ≠ old.condition) := by simp [hce]
      rw [if_neg hnc]
      exact ⟨_, _, rfl, by simp, by simp [hce], fun _ _ => rfl⟩
    · rw [if_pos hce]
      refine ⟨_, _, rfl, ?_, ?_, ?_⟩
      · simp [countEventsOfType_append, countEventsOfType]
      · simp [countEventsOfType_append, countEventsOfType, hce]
      · rintro _ (hodd | hodd) <;> simp [hce] at hodd
  · by_cases hse : st = old.status
    · have hns : ¬(st ≠ old.status) := by simp [hse]
      rw [if_neg hns]
      exact ⟨_, _, rfl, by simp [hse], by simp, fun _ _ => rfl⟩
    · rw [if_pos hse]
      refine ⟨_, _, rfl, ?_, ?_, ?_⟩
      · simp [countEventsOfType_append, countEventsOfType, hse]
      · simp [countEventsOfType_append, countEventsOfType]
      · rintro (hodd | hodd) _ <;> simp [hse] at hodd
  · by_cases hse : st = old.status <;> by_cases hce : c = old.condition
    · have hns : ¬(st ≠ old.status) := by simp [hse]
      have hnc : ¬(c ≠ old.condition) := by simp [hce]
      rw [if_neg hns, if_neg hnc]
      exact ⟨_, _, rfl, by simp [hse], by simp [hce], fun _ _ => rfl⟩
    · have hns : ¬(st ≠ old.status) := by simp [hse]
      rw [if_neg hns, if_pos hce]
      refine ⟨_, _, rfl, ?_, ?_, ?_⟩
      · simp [countEventsOfType_append, countEventsOfType, hse]
      · simp [countEventsOfType_append, countEventsOfType, hce]
      · rintro _ (hodd | hodd) <;> simp [hce] at hodd
    · have hnc : ¬(c ≠ old.condition) := by simp [hce]
      rw [if_pos hse, if_neg hnc]
      refine ⟨_, _, rfl, ?_, ?_, ?_⟩
      · simp [countEventsOfType_append, countEventsOfType, hse]
      · simp [countEventsOfType_append, countEventsOfType, hce]
      · rintro (hodd | hodd) _ <;> simp [hse] at hodd
    · rw [if_pos hse, if_pos hce]
      refine ⟨_, _, rfl, ?_, ?_, ?_⟩
      · simp [countEventsOfType_append, countEventsOfType, hse]
      · simp [countEventsOfType_append, countEventsOfType, hce]
      · rintro (hodd | hodd) _ <;> simp [hse] at hodd

/-- Witness for C9: supplying the already-current Unserviceable status
to an Unserviceable device appends nothing; supplying a different one
appends one `status_change` event. -/
theorem claim_C9_edit_history_witness :
    ∃ s2 t2, updateTablet baseDB 1 { status := some .Serviceable, condition := none } 99 =
        some (s2, t2) ∧
      countEventsOfType s2.tabletHistory "status_change" =
        countEventsOfType baseDB.tabletHistory "status_change" +
          (match (some TabletStatus.Serviceable : Option TabletStatus) with
           | some st => if st = bTab.status then 0 else 1
           | none => 0) ∧
      countEventsOfType s2.tabletHistory "condition_change" =
        countEventsOfType baseDB.tabletHistory "condition_change" +
          (match (none : Option TabletCondition) with
           | some c => if c = bTab.condition then 0 else 1
           | none => 0) ∧
      (((some TabletStatus.Serviceable : Option TabletStatus) = none ∨
        (some TabletStatus.Serviceable : Option TabletStatus) = some bTab.status) →
       ((none : Option TabletCondition) = none ∨
        (none : Option TabletCondition) = some bTab.condition) →
        s2.tabletHistory = baseDB.tabletHistory) :=
  claim_C9_edit_history baseDB 1 { status := some .Serviceable, condition := none } 99 bTab
    (by decide)

/-! ### Claim C1 -/

/-- Primary-key facts the store guarantees for the loan table: the
serial ids are pairwise distinct and below the next serial value. -/
def UniqueLoanIds (s : DB) : Prop :=
  (s.borrowRecords.map (fun r => r.id)).Nodup ∧
  ∀ r ∈ s.borrowRecords, r.id < s.nextBorrowId

theorem openLoanCount_congr {s1 s2 : DB}
    (h : s1.borrowRecords = s2.borrowRecords) (tabletId : Nat) :
    openLoanCount s1 tabletId = openLoanCount s2 tabletId := by
  unfold openLoanCount
  rw [h]

theorem atMostOneOpenLoan_congr {s1 s2 : DB}
    (h : s1.borrowRecords = s2.borrowRecords) :
    atMostOneOpenLoan s1 ↔ atMostOneOpenLoan s2 := by
  unfold atMostOneOpenLoan
  constructor <;> intro ha tid
  · rw [← openLoanCount_congr h tid]; exact ha tid
  · rw [openLoanCount_congr h tid]; exact ha tid

theorem UniqueLoanIds_congr {s1 s2 : DB}
    (h1 : s1.borrowRecords = s2.borrowRecords) (h2 : s1.nextBorrowId = s2.nextBorrowId) :
    UniqueLoanIds s1 ↔ UniqueLoanIds s2 := by
  unfold UniqueLoanIds
  rw [h1, h2]

/-- `deleteTablet` never touches the borrow records or the loan serial
counter. -/
theorem deleteTablet_frame (s : DB) (id : Nat) :
    (deleteTablet s id).1.borrowRecords = s.borrowRecords ∧
    (deleteTablet s id).1.nextBorrowId = s.nextBorrowId := by
  unfold deleteTablet
  split_ifs <;> exact ⟨rfl, rfl⟩

/-- The loan serial counter is unchanged by `createLostReport`. -/
theorem createLostReport_nextBorrowId (s : DB) (p : InsertLostReport) :
    (createLostReport s p).1.nextBorrowId = s.nextBorrowId := by
  rcases hb : p.borrowRecordId with _ | brId
  · rw [createLostReport_spec_noclose (Or.inl hb)]
  · cases hfr : findBorrowRecord s brId with
    | none => rw [createLostReport_spec_noclose (Or.inr (Or.inl ⟨brId, hb, hfr⟩))]
    | some br =>
      cases hro : br.isReturned with
      | true => rw [createLostReport_spec_noclose (Or.inr (Or.inr ⟨brId, br, hb, hfr, hro⟩))]
      | false => rw [createLostReport_spec_close hb hfr hro]

/-- Borrow records after `createLostReport`: either untouched, or —
when an open record was named — those records with the named one
forcibly closed. -/
theorem createLostReport_borrowRecords (s : DB) (p : InsertLostReport) :
    (createLostReport s p).1.borrowRecords = s.borrowRecords ∨
    ∃ brId br, p.borrowRecordId = some brId ∧ findBorrowRecord s brId = some br ∧
      br.isReturned = false ∧
      (createLostReport s p).1.borrowRecords =
        updateBorrowRows s.borrowRecords brId (closeLostRow p.dateReported) := by
  rcases hb : p.borrowRecordId with _ | brId
  · rw [createLostReport_spec_noclose (Or.inl hb)]
    exact Or.inl rfl
  · cases hfr : findBorrowRecord s brId with
    | none =>
      rw [createLostReport_spec_noclose (Or.inr (Or.inl ⟨brId, hb, hfr⟩))]
      exact Or.inl rfl
    | some br =>
      cases hro : br.isReturned with
      | true =>
        rw [createLostReport_spec_noclose (Or.inr (Or.inr ⟨brId, br, hb, hfr, hro⟩))]
        exact Or.inl rfl
      | false =>
        rw [createLostReport_spec_close hb hfr hro]
        exact Or.inr ⟨brId, br, rfl, hfr, hro, rfl⟩

/-- The guarded update underlying `processReturn` and
`createLostReport` keeps the list of loan ids, provided the
replacement keeps the id of matched rows. -/
theorem updateBorrowRows_map_id (l : List BorrowRecord) (k : Nat)
    (f : BorrowRecord → BorrowRecord)
    (hf : ∀ r ∈ l, r.id = k → (f r).id = r.id) :
    (updateBorrowRows l k f).map (fun r => r.id) = l.map (fun r => r.id) := by
  unfold updateBorrowRows
  rw [List.map_map]
  apply List.map_congr_left
  intro r hr
  by_cases hk : r.id = k
  · simp [Function.comp, hk, hf r hr hk]
  · simp [Function.comp, hk]

/-- A record found by `findBorrowRecord` belongs to the table. -/
theorem findBorrowRecord_mem {s : DB} {id : Nat} {br : BorrowRecord}
    (h : findBorrowRecord s id = some br) : br ∈ s.borrowRecords := by
  unfold findBorrowRecord at h
  exact List.mem_of_find?_eq_some h

/-- C1: at most one open loan per device, preserved by the whole
ledger: (a) with the borrower known, `createBorrowRecord` fails with
the already-borrowed conflict whenever any open record references the
device; (b) it succeeds only if no open record existed, and then
exactly one exists; (c) every state-changing operation of the ledger
preserves the primary-key facts of the loan table together with the
at-most-one-open-loan-per-device invariant. -/
theorem claim_C1_one_open_loan :
    (∀ s p student r, findStudent s p.studentId = some student →
      r ∈ s.borrowRecords → r.tabletId = p.tabletId → r.isReturned = false →
      createBorrowRecord s p = .error "Tablet is already borrowed") ∧
    (∀ s p s2 rec, createBorrowRecord s p = .ok (s2, rec) →
      openLoanCount s p.tabletId = 0 ∧ openLoanCount s2 p.tabletId = 1) ∧
    (∀ s op, UniqueLoanIds s → atMostOneOpenLoan s →
      UniqueLoanIds (applyOp s op) ∧ atMostOneOpenLoan (applyOp s op)) := by
  refine ⟨?_, ?_, ?_⟩
  · -- (a) an open record forces the already-borrowed conflict
    intro s p student r hstu hr hrt hro
    cases hopen : openRecordFor s p.tabletId with
    | some r2 => exact createBorrowRecord_err_open hstu hopen
    | none =>
      exfalso
      unfold openRecordFor at hopen
      have := List.find?_eq_none.mp hopen r hr
      simp [hrt, hro] at this
  · -- (b) success characterization of the open-loan count
    intro s p s2 rec h
    obtain ⟨student, tablet, _, hopen, _, _, hrec, hs2⟩ := createBorrowRecord_ok_elim h
    have hzero : openLoanCount s p.tabletId = 0 := openLoanCount_eq_zero s p.tabletId hopen
    refine ⟨hzero, ?_⟩
    have hnil : s.borrowRecords.filter
        (fun r => decide (r.tabletId = p.tabletId ∧ r.isReturned = false)) = [] := by
      apply List.filter_eq_nil_iff.mpr
      intro r hr
      unfold openRecordFor at hopen
      exact List.find?_eq_none.mp hopen r hr
    subst hs2
    show ((s.borrowRecords ++ [insertedBorrowRow s p]).filter
        (fun r => decide (r.tabletId = p.tabletId ∧ r.isReturned = false))).length = 1
    rw [List.filter_append, hnil]
    simp [insertedBorrowRow]
  · -- (c) invariant preservation by every operation
    intro s op hu hone
    cases op with
    | createTabletOp p now => exact ⟨hu, hone⟩
    | updateTabletOp id p now =>
      have happ : applyOp s (.updateTabletOp id p now) =
          (match updateTablet s id p now with
           | some (s2, _) => s2
           | none => s) := rfl
      rw [happ]
      cases hres : updateTablet s id p now with
      | none => exact ⟨hu, hone⟩
      | some pr =>
        obtain ⟨s2, t2⟩ := pr
        obtain ⟨hbr, _, hnext⟩ := updateTablet_frame hres
        exact ⟨(UniqueLoanIds_congr hbr hnext).mpr hu, (atMostOneOpenLoan_congr hbr).mpr hone⟩
    | deleteTabletOp id =>
      obtain ⟨hbr, hnext⟩ := deleteTablet_frame s id
      exact ⟨(UniqueLoanIds_congr hbr hnext).mpr hu, (atMostOneOpenLoan_congr hbr).mpr hone⟩
    | createBorrowRecordOp p =>
      have happ : applyOp s (.createBorrowRecordOp p) =
          (match createBorrowRecord s p with
           | .ok (s2, _) => s2
           | .error _ => s) := rfl
      rw [happ]
      cases hres : createBorrowRecord s p with
      | error e => exact ⟨hu, hone⟩
      | ok pr =>
        obtain ⟨s2, rec⟩ := pr
        obtain ⟨student, tablet, _, hopen, _, _, hrec, hs2⟩ := createBorrowRecord_ok_elim hres
        subst hs2
        constructor
        · constructor
          · show ((s.borrowRecords ++ [insertedBorrowRow s p]).map (fun r => r.id)).Nodup
            rw [List.map_append]
            rw [List.nodup_append]
            refine ⟨hu.1, by simp, ?_⟩
            intro x hx hx2
            simp only [List.map_cons, List.map_nil, List.mem_singleton] at hx2
            obtain ⟨r, hr, hrid⟩ := List.mem_map.mp hx
            have := hu.2 r hr
            rw [hrid] at this
            rw [hx2] at this
            exact absurd this (by simp [insertedBorrowRow])
          · intro r hr
            rcases List.mem_append.mp hr with hold | hnew
            · exact Nat.lt_succ_of_lt (hu.2 r hold)
            · rw [List.mem_singleton.mp hnew]
              exact Nat.lt_succ_self _
        · intro tid
          have hnil : s.borrowRecords.filter
              (fun r => decide (r.tabletId = p.tabletId ∧ r.isReturned = false)) = [] := by
            apply List.filter_eq_nil_iff.mpr
            intro r hr
            unfold openRecordFor at hopen
            exact List.find?_eq_none.mp hopen r hr
          show ((s.borrowRecords ++ [insertedBorrowRow s p]).filter
              (fun r => decide (r.tabletId = tid ∧ r.isReturned = false))).length ≤ 1
          rw [List.filter_append, List.length_append]
          by_cases htid : tid = p.tabletId
          · subst htid
            rw [hnil]
            simp [insertedBorrowRow]
          · have hsingle : ([insertedBorrowRow s p].filter
                (fun r => decide (r.tabletId = tid ∧ r.isReturned = false))) = [] := by
              simp [insertedBorrowRow]
              intro hc
              exact absurd hc.symm htid
            rw [hsingle]
            have := hone tid
            unfold openLoanCount at this
            simpa using this
    | processReturnOp id returnData =>
      have happ : applyOp s (.processReturnOp id returnData) =
          (match processReturn s id returnData with
           | .ok (s2, _) => s2
           | .error _ => s) := rfl
      rw [happ]
      cases hres : processReturn s id returnData with
      | error e => exact ⟨hu, hone⟩
      | ok pr =>
        obtain ⟨s2, upd⟩ := pr
        simp only []
        obtain ⟨br, student, hrec, hopen, hstu, hupd, hs2⟩ := processReturn_ok_elim hres
        have hbrid : br.id = id := findBorrowRecord_id hrec
        have hbrmem : br ∈ s.borrowRecords := findBorrowRecord_mem hrec
        subst hs2
        rw [← hupd]
        constructor
        · constructor
          · show ((updateBorrowRows s.borrowRecords id (fun _ => upd)).map (fun r => r.id)).Nodup
            rw [updateBorrowRows_map_id s.borrowRecords id _ (fun r _ hk => by
              rw [hupd]
              show br.id = r.id
              rw [hbrid, hk])]
            exact hu.1
          · intro r hr
            obtain ⟨r0, hr0, hrr⟩ := List.mem_map.mp hr
            by_cases hk : r0.id = id
            · have : r = upd := by rw [← hrr]; simp [hk]
              rw [this, hupd]
              show br.id < s.nextBorrowId
              exact hu.2 br hbrmem
            · have : r = r0 := by rw [← hrr]; simp [hk]
              rw [this]
              exact hu.2 r0 hr0
        · intro tid
          rw [show openLoanCount
              { s with
                  borrowRecords := updateBorrowRows s.borrowRecords id (fun _ => upd)
                  tablets := updateTabletRows s.tablets br.tabletId
                    (fun t => { t with condition := returnData.returnCondition })
                  tabletHistory := s.tabletHistory ++
                    [returnedEventRow s id br student returnData]
                  nextHistoryId := s.nextHistoryId + 1 } tid =
              (updateBorrowRows s.borrowRecords id (fun _ => upd)).countP
                (fun r => decide (r.tabletId = tid ∧ r.isReturned = false)) from
            (List.countP_eq_length_filter _ _).symm]
          refine le_trans (countP_updateBorrowRows_le s.borrowRecords id _ _ ?_) ?_
          · intro r hr hk hp
            have hreq : r = br :=
              List.inj_on_of_nodup_map hu.1 hr hbrmem (by rw [hk, hbrid])
            simp only [decide_eq_true_eq] at hp
            have htid2 : br.tabletId = tid := by
              rw [hupd] at hp
              exact hp.1
            simp only [decide_eq_true_eq]
            rw [hreq]
            exact ⟨htid2, hopen⟩
          · rw [← openLoanCount_eq_countP]
            exact hone tid
    | createLostReportOp p =>
      have happ : applyOp s (.createLostReportOp p) = (createLostReport s p).1 := rfl
      rw [happ]
      have hnext := createLostReport_nextBorrowId s p
      rcases createLostReport_borrowRecords s p with hsame | ⟨brId, br, _, hbr, hopen, hrecs⟩
      · exact ⟨(UniqueLoanIds_congr hsame hnext).mpr hu, (atMostOneOpenLoan_congr hsame).mpr hone⟩
      · constructor
        · constructor
          · show (((createLostReport s p).1.borrowRecords).map (fun r => r.id)).Nodup
            rw [hrecs]
            rw [updateBorrowRows_map_id s.borrowRecords brId (closeLostRow p.dateReported)
              (fun r _ _ => rfl)]
            exact hu.1
          · intro r hr
            rw [hrecs] at hr
            obtain ⟨r0, hr0, hrr⟩ := List.mem_map.mp hr
            rw [hnext]
            by_cases hk : r0.id = brId
            · have : r = closeLostRow p.dateReported r0 := by rw [← hrr]; simp [hk]
              rw [this]
              show r0.id < s.nextBorrowId
              exact hu.2 r0 hr0
            · have : r = r0 := by rw [← hrr]; simp [hk]
              rw [this]
              exact hu.2 r0 hr0
        · intro tid
          rw [show openLoanCount (createLostReport s p).1 tid =
              ((createLostReport s p).1.borrowRecords).countP
                (fun r => decide (r.tabletId = tid ∧ r.isReturned = false)) from
            (List.countP_eq_length_filter _ _).symm]
          rw [hrecs]
          refine le_trans (countP_updateBorrowRows_le s.borrowRecords brId _ _ ?_) ?_
          · intro r hr hk hp
            simp [closeLostRow] at hp
          · rw [← openLoanCount_eq_countP]
            exact hone tid

/-- Witness for C1: on the concrete one-open-loan store a second
borrow of the same tablet fails with the conflict; the concrete borrow
from the empty ledger went from zero to one open loan; applying the
borrow operation on the already-borrowed store preserves the
invariant. -/
theorem claim_C1_one_open_loan_witness :
    createBorrowRecord borrowedDB bIns = .error "Tablet is already borrowed" ∧
    (openLoanCount baseDB 1 = 0 ∧ openLoanCount borrowedDB 1 = 1) ∧
    (UniqueLoanIds (applyOp borrowedDB (.createBorrowRecordOp bIns)) ∧
      atMostOneOpenLoan (applyOp borrowedDB (.createBorrowRecordOp bIns))) :=
  ⟨claim_C1_one_open_loan.1 borrowedDB bIns bStu openRec (by decide) (by decide)
    (by decide) (by decide),
   claim_C1_one_open_loan.2.1 baseDB bIns borrowedDB openRec rfl,
   claim_C1_one_open_loan.2.2 borrowedDB (.createBorrowRecordOp bIns)
    (by constructor
        · decide
        · decide)
    (by intro tid
        show (List.filter (fun r => decide (r.tabletId = tid ∧ r.isReturned = false))
          [openRec]).length ≤ 1
        by_cases h : openRec.tabletId = tid ∧ openRec.isReturned = false
        · simp [List.filter, h]
        · simp [List.filter, h])⟩

/-- A tablet found by `findTablet` belongs to the table. -/
theorem findTablet_mem {s : DB} {id : Nat} {t : Tablet}
    (h : findTablet s id = some t) : t ∈ s.tablets := by
  unfold findTablet at h
  exact List.mem_of_find?_eq_some h

/-- C8: borrowing a device and then returning it (with a normal
`isReturned = true` payload) makes `isDeviceAvailable` true again, and
the device history holds exactly two events for that loan — `borrowed`
then `returned`, in that order.  The freshness hypotheses state what
the serial primary key guarantees: no pre-existing row uses the id the
new loan receives. -/
theorem claim_C8_roundtrip (s : DB) (p : InsertBorrowRecord)
    (returnData : UpdateBorrowRecordForReturn) (s1 : DB) (rec : BorrowRecord)
    (s2 : DB) (upd : BorrowRecord)
    (hfreshR : ∀ r ∈ s.borrowRecords, r.id ≠ s.nextBorrowId)
    (hfreshH : ∀ ev ∈ s.tabletHistory, ev.borrowRecordId ≠ some s.nextBorrowId)
    (hb : createBorrowRecord s p = .ok (s1, rec))
    (hr : processReturn s1 rec.id returnData = .ok (s2, upd))
    (hflag : returnData.isReturned = true) :
    isDeviceAvailable s2 p.tabletId = true ∧
    ((s2.tabletHistory.filter (fun ev => decide (ev.borrowRecordId = some rec.id))).map
      (fun ev => ev.eventType)) = ["borrowed", "returned"] := by
  obtain ⟨student, tablet, hstu, hopen, htab, hst, hrec_eq, hs1⟩ :=
    createBorrowRecord_ok_elim hb
  subst hrec_eq
  subst hs1
  have htabid : tablet.id = p.tabletId := findTablet_id htab
  have htabmem : tablet ∈ s.tablets := findTablet_mem htab
  -- looking the fresh record back up in the post-borrow state
  have hfind1 : findBorrowRecord
      { s with
          borrowRecords := s.borrowRecords ++ [insertedBorrowRow s p]
          tabletHistory := s.tabletHistory ++ [borrowedEventRow s p student]
          nextBorrowId := s.nextBorrowId + 1
          nextHistoryId := s.nextHistoryId + 1 } (insertedBorrowRow s p).id =
      some (insertedBorrowRow s p) := by
    show (s.borrowRecords ++ [insertedBorrowRow s p]).find?
        (fun r => decide (r.id = (insertedBorrowRow s p).id)) = some (insertedBorrowRow s p)
    rw [List.find?_append]
    have hpre : s.borrowRecords.find?
        (fun r => decide (r.id = (insertedBorrowRow s p).id)) = none := by
      apply List.find?_eq_none.mpr
      intro r hrr
      have := hfreshR r hrr
      simp only [decide_eq_true_eq]
      exact this
    rw [hpre]
    simp
  have hstu1 : findStudent
      { s with
          borrowRecords := s.borrowRecords ++ [insertedBorrowRow s p]
          tabletHistory := s.tabletHistory ++ [borrowedEventRow s p student]
          nextBorrowId := s.nextBorrowId + 1
          nextHistoryId := s.nextHistoryId + 1 } (insertedBorrowRow s p).studentId =
      some student := hstu
  rw [processReturn_ok_intro hfind1 rfl hstu1] at hr
  simp only [Except.ok.injEq, Prod.mk.injEq] at hr
  obtain ⟨hh1, hh2⟩ := hr
  subst hh1
  subst hh2
  constructor
  · -- availability is restored
    rw [isDeviceAvailable_iff]
    constructor
    · refine ⟨{ tablet with condition := returnData.returnCondition }, ?_, htabid, hst⟩
      show _ ∈ (s.tablets.map (fun t =>
        if t.id = (insertedBorrowRow s p).tabletId then
          { t with condition := returnData.returnCondition } else t))
      refine List.mem_map.mpr ⟨tablet, htabmem, ?_⟩
      have : tablet.id = (insertedBorrowRow s p).tabletId := htabid
      rw [if_pos this]
    · intro r' hr' hro htid'
      have hr2 : r' ∈ ((s.borrowRecords ++ [insertedBorrowRow s p]).map (fun r =>
          if r.id = (insertedBorrowRow s p).id then
            { insertedBorrowRow s p with
                isReturned := returnData.isReturned
                returnDate := some returnData.returnDate
                returnCondition := some returnData.returnCondition
                returnNotes := returnData.returnNotes }
          else r)) := hr'
      obtain ⟨r0, hr0, hgr⟩ := List.mem_map.mp hr2
      rcases List.mem_append.mp hr0 with h0 | h0
      · have hne : ¬(r0.id = (insertedBorrowRow s p).id) := hfreshR r0 h0
        rw [if_neg hne] at hgr
        subst hgr
        unfold openRecordFor at hopen
        have := List.find?_eq_none.mp hopen r0 h0
        simp only [decide_eq_true_eq, not_and] at this
        exact absurd hro (by
          intro hc
          exact absurd htid' (by
            intro ht
            exact (this ht) hc))
      · rw [List.mem_singleton.mp h0] at hgr
        rw [if_pos rfl] at hgr
        subst hgr
        rw [hflag] at hro
        exact absurd hro (by simp)
  · -- exactly the two events of this loan, in order
    show (((s.tabletHistory ++ [borrowedEventRow s p student]) ++
        [returnedEventRow _ (insertedBorrowRow s p).id (insertedBorrowRow s p) student
          returnData]).filter
        (fun ev => decide (ev.borrowRecordId = some (insertedBorrowRow s p).id))).map
        (fun ev => ev.eventType) = ["borrowed", "returned"]
    rw [List.filter_append, List.filter_append]
    have hpre : s.tabletHistory.filter
        (fun ev => decide (ev.borrowRecordId = some (insertedBorrowRow s p).id)) = [] := by
      apply List.filter_eq_nil_iff.mpr
      intro ev hev
      have := hfreshH ev hev
      simp only [decide_eq_true_eq]
      exact this
    rw [hpre]
    simp [borrowedEventRow, returnedEventRow, insertedBorrowRow]

/-- Store after returning the concrete loan with the normal payload. -/
def c8DB : DB :=
  match processReturn borrowedDB openRec.id rdTrue with
  | .ok (s2, _) => s2
  | .error _ => borrowedDB

/-- Record after returning the concrete loan with the normal payload. -/
def c8Rec : BorrowRecord :=
  match processReturn borrowedDB openRec.id rdTrue with
  | .ok (_, upd) => upd
  | .error _ => openRec

/-- Witness for C8 on the concrete borrow-then-return round trip. -/
theorem claim_C8_roundtrip_witness :
    isDeviceAvailable c8DB bIns.tabletId = true ∧
    ((c8DB.tabletHistory.filter (fun ev => decide (ev.borrowRecordId = some openRec.id))).map
      (fun ev => ev.eventType)) = ["borrowed", "returned"] :=
  claim_C8_roundtrip baseDB bIns rdTrue borrowedDB openRec c8DB c8Rec
    (by decide) (by decide) rfl rfl rfl
